import Mathlib

/-!
Shallow embedding of the titan thread state store and session pipeline.

The data model follows `types.ts` (the variant with the `inactive` status and
the chat/provider fields), the reducer follows `store.tsx`, the hydration and
fire-sweep logic follows `App.tsx`, and the auto-title logic follows
`TerminalManager.tsx`.  JavaScript timestamps (`Date.now()`) are modelled as a
`now : Nat` parameter threaded into the functions that read the clock;
`number | null` fields become `Option` types; the tagged action union becomes a
closed inductive type.
-/

namespace Titan

/-- Thread status from `types.ts`: "active" | "snoozed" | "done" | "inactive". -/
inductive ThreadStatus where
  | active
  | snoozed
  | done
  | inactive
deriving DecidableEq, Repr

/-- Thread type from `types.ts`: "terminal" | "chat". -/
inductive ThreadType where
  | terminal
  | chat
deriving DecidableEq, Repr

/-- Theme from `types.ts`: "light" | "dark". -/
inductive Theme where
  | light
  | dark
deriving DecidableEq, Repr

/-- App view from `types.ts`: "threads" | "replies" | "settings". -/
inductive AppView where
  | threads
  | replies
  | settings
deriving DecidableEq, Repr

/-- Chat message role: "user" | "assistant" | "system". -/
inductive Role where
  | user
  | assistant
  | system
deriving DecidableEq, Repr

/-- ChatMessage from `types.ts`. -/
structure ChatMessage where
  id : String
  role : Role
  content : String
  createdAt : Nat
deriving DecidableEq, Repr

/-- ProviderConfig from `types.ts`; the optional TS fields become `Option`. -/
structure ProviderConfig where
  id : String
  ptype : String
  label : String
  baseUrl : Option String
  apiKey : Option String
  defaultModel : String
deriving DecidableEq, Repr

/-- ScheduledMessage from `types.ts`. -/
structure ScheduledMessage where
  id : String
  channelId : String
  prompt : String
  scheduledAt : Nat
deriving DecidableEq, Repr

/-- Channel from `types.ts` (a tree node). -/
structure Channel where
  id : String
  name : String
  path : String
  children : List Channel

/-- Thread from `types.ts`. -/
structure Thread where
  id : String
  channelId : String
  title : String
  status : ThreadStatus
  createdAt : Nat
  lastActivityAt : Nat
  lastReadAt : Option Nat
  hasUnread : Bool
  snoozeUntil : Option Nat
  snoozeDue : Bool
  lastOutputPreview : Option String
  threadType : ThreadType
  ptyId : Option Nat
  ptyRunning : Bool
  ptyExitCode : Option Int
  autoTitled : Bool
  chatMessages : List ChatMessage
  model : Option String
  providerId : Option String
  isStreaming : Bool
deriving DecidableEq, Repr

/-- AppState from `types.ts`. -/
structure AppState where
  channels : List Channel
  threads : List Thread
  selectedChannelId : Option String
  selectedThreadId : Option String
  rootPath : Option String
  theme : Theme
  currentView : AppView
  scheduledMessages : List ScheduledMessage
  autoRunCommand : Option String
  providers : List ProviderConfig
  defaultProviderId : Option String

/-- The `Partial<AppState>` payload of the HYDRATE action: each field is
optionally present, and a present field overwrites the state's field
(JS object spread `\x7b...state, ...action.state\x7d`). -/
structure StatePatch where
  channels : Option (List Channel)
  threads : Option (List Thread)
  selectedChannelId : Option (Option String)
  selectedThreadId : Option (Option String)
  rootPath : Option (Option String)
  theme : Option Theme
  currentView : Option AppView
  scheduledMessages : Option (List ScheduledMessage)
  autoRunCommand : Option (Option String)
  providers : Option (List ProviderConfig)
  defaultProviderId : Option (Option String)

/-- Spread-merge of a partial state over a state, as in the HYDRATE case of
the reducer. -/
def applyPatch (s : AppState) (p : StatePatch) : AppState :=
  { channels := p.channels.getD s.channels
    threads := p.threads.getD s.threads
    selectedChannelId := p.selectedChannelId.getD s.selectedChannelId
    selectedThreadId := p.selectedThreadId.getD s.selectedThreadId
    rootPath := p.rootPath.getD s.rootPath
    theme := p.theme.getD s.theme
    currentView := p.currentView.getD s.currentView
    scheduledMessages := p.scheduledMessages.getD s.scheduledMessages
    autoRunCommand := p.autoRunCommand.getD s.autoRunCommand
    providers := p.providers.getD s.providers
    defaultProviderId := p.defaultProviderId.getD s.defaultProviderId }

/-- The action union from `store.tsx`, one constructor per `type` tag. -/
inductive Action where
  | setChannels (channels : List Channel) (rootPath : String)
  | createThread (id channelId title : String) (ptyId : Nat)
  | createChatThread (id channelId title providerId model : String)
  | selectThread (threadId : String)
  | setThreadStatus (threadId : String) (status : ThreadStatus) (snoozeUntil : Option Nat)
  | markActivity (threadId : String)
  | selectChannel (channelId : String)
  | setOutputPreview (threadId preview : String)
  | markAllRead
  | wakeSnoozed
  | killThreadPty (threadId : String)
  | setPtyExited (threadId : String) (exitCode : Int)
  | setPtyRunning (threadId : String)
  | addChatMessage (threadId : String) (message : ChatMessage)
  | setChatMessages (threadId : String) (messages : List ChatMessage)
  | setStreaming (threadId : String) (streaming : Bool)
  | updateStreamingMessage (threadId content : String)
  | setProviders (providers : List ProviderConfig)
  | addProvider (provider : ProviderConfig)
  | updateProvider (provider : ProviderConfig)
  | removeProvider (providerId : String)
  | setDefaultProvider (providerId : String)
  | toggleTheme
  | setView (view : AppView)
  | renameThread (threadId title : String)
  | scheduleMessage (message : ScheduledMessage)
  | cancelScheduled (messageId : String)
  | fireScheduled (messageId : String)
  | setAutoRunCommand (command : Option String)
  | deleteThread (threadId : String)
  | hydrate (patch : StatePatch)

/-- `deriveUnread` from `store.tsx`: false for the selected thread, otherwise
`lastActivityAt > (lastReadAt ?? 0)`. -/
def deriveUnread (thread : Thread) (selectedThreadId : Option String) : Bool :=
  if some thread.id = selectedThreadId then false
  else decide (thread.lastReadAt.getD 0 < thread.lastActivityAt)

/-- JavaScript `s || dflt` on strings: the empty string is falsy. -/
def presentOr (s dflt : String) : String :=
  if s = ("") then dflt else s

/-- Truncation with ellipsis, `s.length > n ? s.slice(0, n) + "..." : s`. -/
def truncateWithEllipsis (n : Nat) (s : String) : String :=
  if n < s.length then s.take n ++ ("...") else s

/-- `makeThread` from `store.tsx`, with `now = Date.now()` passed explicitly. -/
def makeThread (id channelId title : String) (tt : ThreadType) (ptyId : Option Nat)
    (providerId model : Option String) (autoTitled : Bool) (now : Nat) : Thread :=
  { id := id
    channelId := channelId
    title := title
    status := ThreadStatus.active
    createdAt := now
    lastActivityAt := now
    lastReadAt := some now
    hasUnread := false
    snoozeUntil := none
    snoozeDue := false
    lastOutputPreview := none
    threadType := tt
    ptyId := ptyId
    ptyRunning := tt == ThreadType.terminal
    ptyExitCode := none
    autoTitled := autoTitled
    chatMessages := []
    model := model
    providerId := providerId
    isStreaming := false }

/-- The WAKE_SNOOZED qualification test from `store.tsx`:
`status == "snoozed" && snoozeUntil != null && now >= snoozeUntil && !snoozeDue`. -/
def wakeQualifies (now : Nat) (t : Thread) : Bool :=
  match t.status, t.snoozeUntil with
  | ThreadStatus.snoozed, some u => decide (u ≤ now) && !t.snoozeDue
  | _, _ => false

/-- The reducer from `store.tsx`.  `Date.now()` is the `now` parameter; the
`localStorage` writes in the provider/theme/auto-run cases are external side
effects and are dropped, keeping only the returned state.  The single-pass
`changed` flag of the WAKE_SNOOZED case is modelled as an `any` test over the
same qualification predicate. -/
def reducer (now : Nat) (state : AppState) (action : Action) : AppState :=
  match action with
  | .setChannels channels rootPath =>
      { state with channels := channels, rootPath := some rootPath }
  | .createThread id channelId title ptyId =>
      let thread := makeThread id channelId (presentOr title ("New thread"))
        ThreadType.terminal (some ptyId) none none
        (title == ("") || title == ("New thread")) now
      { state with threads := state.threads ++ [thread]
                   selectedThreadId := some id
                   selectedChannelId := some channelId
                   currentView := AppView.threads }
  | .createChatThread id channelId title providerId model =>
      let thread := makeThread id channelId (presentOr title ("New chat"))
        ThreadType.chat none (some providerId) (some model) false now
      { state with threads := state.threads ++ [thread]
                   selectedThreadId := some id
                   selectedChannelId := some channelId
                   currentView := AppView.threads }
  | .selectThread threadId =>
      let threads := state.threads.map fun t =>
        if t.id = threadId then
          { t with lastReadAt := some now, hasUnread := false, snoozeDue := false }
        else t
      { state with threads := threads, selectedThreadId := some threadId }
  | .setThreadStatus threadId status snoozeUntil =>
      let threads := state.threads.map fun t =>
        if t.id = threadId then
          { t with status := status
                   snoozeUntil := if status = ThreadStatus.snoozed then snoozeUntil else none
                   snoozeDue := false }
        else t
      { state with threads := threads }
  | .markActivity threadId =>
      let threads := state.threads.map fun t =>
        if t.id = threadId then
          let updated := { t with lastActivityAt := now }
          { updated with hasUnread := deriveUnread updated state.selectedThreadId }
        else t
      { state with threads := threads }
  | .selectChannel channelId =>
      { state with selectedChannelId := some channelId
                   selectedThreadId := none
                   currentView := AppView.threads }
  | .setOutputPreview threadId preview =>
      { state with threads := state.threads.map fun t =>
          if t.id = threadId then { t with lastOutputPreview := some preview } else t }
  | .markAllRead =>
      { state with threads := state.threads.map fun t =>
          if t.hasUnread || t.snoozeDue then
            { t with hasUnread := false, snoozeDue := false, lastReadAt := some now }
          else t }
  | .wakeSnoozed =>
      if state.threads.any (wakeQualifies now) then
        { state with threads := state.threads.map fun t =>
            if wakeQualifies now t then { t with snoozeDue := true } else t }
      else state
  | .killThreadPty threadId =>
      { state with threads := state.threads.map fun t =>
          if t.id = threadId then
            { t with ptyId := none, ptyRunning := false, ptyExitCode := some (-1),
                     status := ThreadStatus.inactive }
          else t }
  | .setPtyExited threadId exitCode =>
      { state with threads := state.threads.map fun t =>
          if t.id = threadId then
            { t with ptyRunning := false, ptyExitCode := some exitCode }
          else t }
  | .setPtyRunning threadId =>
      { state with threads := state.threads.map fun t =>
          if t.id = threadId then
            { t with ptyRunning := true, ptyExitCode := none }
          else t }
  | .addChatMessage threadId message =>
      { state with threads := state.threads.map fun t =>
          if t.id = threadId then
            { t with chatMessages := t.chatMessages ++ [message]
                     lastActivityAt := now
                     lastOutputPreview := some (truncateWithEllipsis 120 message.content) }
          else t }
  | .setChatMessages threadId messages =>
      { state with threads := state.threads.map fun t =>
          if t.id = threadId then
            { t with chatMessages := messages
                     lastOutputPreview :=
                       match messages.getLast? with
                       | some m => some (truncateWithEllipsis 120 m.content)
                       | none => t.lastOutputPreview }
          else t }
  | .setStreaming threadId streaming =>
      { state with threads := state.threads.map fun t =>
          if t.id = threadId then { t with isStreaming := streaming } else t }
  | .updateStreamingMessage threadId content =>
      { state with threads := state.threads.map fun t =>
          if t.id = threadId then
            { t with chatMessages :=
                match t.chatMessages.getLast? with
                | some m =>
                    if m.role = Role.assistant then
                      t.chatMessages.dropLast ++ [{ m with content := content }]
                    else t.chatMessages
                | none => t.chatMessages }
          else t }
  | .setProviders providers =>
      { state with providers := providers }
  | .addProvider provider =>
      { state with providers := state.providers ++ [provider]
                   defaultProviderId := some (state.defaultProviderId.getD provider.id) }
  | .updateProvider provider =>
      { state with providers := state.providers.map fun p =>
          if p.id = provider.id then provider else p }
  | .removeProvider providerId =>
      let providers := state.providers.filter fun p => p.id != providerId
      { state with providers := providers
                   defaultProviderId :=
                     if state.defaultProviderId = some providerId then
                       providers.head?.map ProviderConfig.id
                     else state.defaultProviderId }
  | .setDefaultProvider providerId =>
      { state with defaultProviderId := some providerId }
  | .toggleTheme =>
      { state with theme := if state.theme = Theme.dark then Theme.light else Theme.dark }
  | .setView view =>
      { state with currentView := view }
  | .renameThread threadId title =>
      { state with threads := state.threads.map fun t =>
          if t.id = threadId then { t with title := title, autoTitled := false } else t }
  | .scheduleMessage message =>
      { state with scheduledMessages := state.scheduledMessages ++ [message] }
  | .cancelScheduled messageId =>
      { state with scheduledMessages :=
          state.scheduledMessages.filter fun m => m.id != messageId }
  | .fireScheduled messageId =>
      { state with scheduledMessages :=
          state.scheduledMessages.filter fun m => m.id != messageId }
  | .setAutoRunCommand command =>
      { state with autoRunCommand := command }
  | .deleteThread threadId =>
      { state with threads := state.threads.filter fun t => t.id != threadId
                   selectedThreadId :=
                     if state.selectedThreadId = some threadId then none
                     else state.selectedThreadId }
  | .hydrate patch => applyPatch state patch

/-- Serialization of the thread list for persistence.  The source writes
`JSON.stringify(state.threads)` and reads it back with `JSON.parse`; the
stringify/parse pair is the identity on the typed thread data (the spec
excludes serialization mechanics from the core and only requires the
load/save contract), so it is modelled as the identity on the list. -/
def serializeThreads (threads : List Thread) : List Thread :=
  threads

/-- The per-thread forcing applied by the hydrate effect in `App.tsx`:
`ptyRunning: false, ptyExitCode: 0, ptyId: null, hasUnread: false,
autoTitled: t.autoTitled ?? false` (the field is always present on a
serialized typed thread, so the `?? false` default is the field itself). -/
def hydrateThread (t : Thread) : Thread :=
  { t with ptyRunning := false
           ptyExitCode := some 0
           ptyId := none
           hasUnread := false
           autoTitled := t.autoTitled }

/-- Hydration of a persisted thread list, `threads.map(...)` in `App.tsx`. -/
def hydrateThreads (threads : List Thread) : List Thread :=
  threads.map hydrateThread

/-- One pass of the fire-scheduled sweep in `App.tsx`: iterate over the
snapshot of `state.scheduledMessages`; for each message due at `now`
(`now >= msg.scheduledAt`), dispatch FIRE_SCHEDULED and then CREATE_THREAD
with the message's prompt as title and `ptyId = 0`.  The global
`threadCounter++` and `Date.now()`-based id string are modelled by the
injected `freshId` generator applied to a counter that increments once per
fired message. -/
def fireSweepAux (now : Nat) (freshId : Nat → String) :
    Nat → List ScheduledMessage → AppState → AppState
  | _, [], s => s
  | k, m :: rest, s =>
      if m.scheduledAt ≤ now then
        fireSweepAux now freshId (k + 1) rest
          (reducer now (reducer now s (Action.fireScheduled m.id))
            (Action.createThread (freshId k) m.channelId m.prompt 0))
      else fireSweepAux now freshId k rest s

/-- One fire-sweep step over the state's own pending list. -/
def fireSweepStep (now : Nat) (freshId : Nat → String) (s : AppState) : AppState :=
  fireSweepAux now freshId 0 s.scheduledMessages s

/-- JavaScript `line.trim()` on the character-list view of the string
(whitespace stripped from both ends).  It is stated over `String.data` so
that it evaluates by kernel reduction. -/
def jsTrim (s : String) : String :=
  ⟨((s.data.dropWhile Char.isWhitespace).reverse.dropWhile Char.isWhitespace).reverse⟩

/-- JavaScript `s.startsWith(p)` on the character-list view of the string. -/
def jsStartsWith (s p : String) : Bool :=
  p.data.isPrefixOf s.data

/-- The auto-title line filter from `TerminalManager.tsx`: a trimmed line
qualifies when its length exceeds 3, it does not start with `$`, `%`, the
box-drawing glyphs, or `>`, and it is not the auto-run command itself. -/
def autoTitleOk (cmd trimmed : String) : Bool :=
  decide (3 < trimmed.length) &&
  !(jsStartsWith trimmed ("$")) &&
  !(jsStartsWith trimmed ("%")) &&
  !(trimmed == cmd) &&
  !(jsStartsWith trimmed ("╭")) &&
  !(jsStartsWith trimmed ("╰")) &&
  !(jsStartsWith trimmed (">"))

/-- Scan arrived lines for the first qualifying one and produce the rename
title, truncated to 60 characters with an ellipsis when longer (the loop in
`TerminalManager.tsx` breaks at the first match). -/
def autoTitleScan (cmd : String) : List String → Option String
  | [] => none
  | line :: rest =>
      let trimmed := jsTrim line
      if autoTitleOk cmd trimmed then some (truncateWithEllipsis 60 trimmed)
      else autoTitleScan cmd rest

/-- One `onData` auto-title step for a session: guarded by
`!instance.autoTitleDone && instance.claudeStarted` and `thread.autoTitled`;
on a scan match it sets the done flag and yields the rename title. -/
def autoTitleStep (cmd : String) (autoTitleDone claudeStarted autoTitled : Bool)
    (lines : List String) : Bool × Option String :=
  if !autoTitleDone && claudeStarted && autoTitled then
    match autoTitleScan cmd lines with
    | some title => (true, some title)
    | none => (autoTitleDone, none)
  else (autoTitleDone, none)

/-- The snooze invariant of the spec, as an executable check:
`snoozeUntil` is non-null only when `status == snoozed`. -/
def snoozeInvariant (s : AppState) : Bool :=
  s.threads.all fun t => t.snoozeUntil == none || t.status == ThreadStatus.snoozed

/-- The thread id referenced by the actions whose reducer case maps or
filters `state.threads` by id (the "referencing a non-existent id" family of
the failure policy).  CREATE_THREAD / CREATE_CHAT_THREAD insert rather than
reference and the scheduled-message actions reference a message id, so they
are not included. -/
def targetThreadId : Action → Option String
  | .selectThread tid => some tid
  | .setThreadStatus tid _ _ => some tid
  | .markActivity tid => some tid
  | .setOutputPreview tid _ => some tid
  | .killThreadPty tid => some tid
  | .setPtyExited tid _ => some tid
  | .setPtyRunning tid => some tid
  | .addChatMessage tid _ => some tid
  | .setChatMessages tid _ => some tid
  | .setStreaming tid _ => some tid
  | .updateStreamingMessage tid _ => some tid
  | .renameThread tid _ => some tid
  | .deleteThread tid => some tid
  | _ => none

/-- A plain terminal thread used as the base of the concrete test states. -/
def baseThread : Thread :=
  { id := ("t1")
    channelId := ("c1")
    title := ("T")
    status := ThreadStatus.active
    createdAt := 0
    lastActivityAt := 0
    lastReadAt := some 0
    hasUnread := false
    snoozeUntil := none
    snoozeDue := false
    lastOutputPreview := none
    threadType := ThreadType.terminal
    ptyId := some 1
    ptyRunning := true
    ptyExitCode := none
    autoTitled := false
    chatMessages := []
    model := none
    providerId := none
    isStreaming := false }

/-- An empty app state used as the base of the concrete test states. -/
def baseState : AppState :=
  { channels := []
    threads := []
    selectedChannelId := none
    selectedThreadId := none
    rootPath := none
    theme := Theme.dark
    currentView := AppView.threads
    scheduledMessages := []
    autoRunCommand := some ("claude")
    providers := []
    defaultProviderId := none }

/-- A snoozed thread whose snooze timestamp has not yet been cleared. -/
def snoozedThread : Thread :=
  { baseThread with status := ThreadStatus.snoozed, snoozeUntil := some 5 }

/-- State holding one snoozed thread; it satisfies the snooze invariant. -/
def snoozedState : AppState :=
  { baseState with threads := [snoozedThread] }

/-- Two-thread state for the snooze/wake scenario: thread `a` is active and
thread `b` is snoozed with an already-elapsed snooze timestamp. -/
def twoThreadState : AppState :=
  { baseState with threads :=
      [{ baseThread with id := ("a") },
       { baseThread with id := ("b"), status := ThreadStatus.snoozed,
                         snoozeUntil := some 0 }] }

/-- The state after snoozing thread `a` until time 10 in `twoThreadState`. -/
def twoThreadSnoozed : AppState :=
  reducer 5 twoThreadState (Action.setThreadStatus ("a") ThreadStatus.snoozed (some 10))

/-- A scheduled message with an empty prompt, due at time 1000. -/
def emptyPromptMessage : ScheduledMessage :=
  { id := ("m1"), channelId := ("c1"), prompt := (""), scheduledAt := 1000 }

/-- State holding only the empty-prompt scheduled message. -/
def emptyPromptState : AppState :=
  { baseState with scheduledMessages := [emptyPromptMessage] }

/-- A scheduled message with a non-empty prompt, due at time 1000. -/
def promptMessage : ScheduledMessage :=
  { id := ("m2"), channelId := ("c1"), prompt := ("hello"), scheduledAt := 1000 }

/-- State holding only the non-empty-prompt scheduled message. -/
def promptState : AppState :=
  { baseState with scheduledMessages := [promptMessage] }

/-- Mapping a thread list with a by-id update leaves it unchanged when no
element carries the id. -/
lemma map_ite_id (tid : String) (f : Thread → Thread) (l : List Thread)
    (h : ∀ t ∈ l, ¬ t.id = tid) :
    (l.map fun t => if t.id = tid then f t else t) = l := by
  calc (l.map fun t => if t.id = tid then f t else t)
      = l.map id := List.map_congr_left (fun t ht => if_neg (h t ht))
    _ = l := List.map_id l

/-- Filtering a thread list by "id differs" keeps every element when no
element carries the id. -/
lemma filter_ne_id (tid : String) (l : List Thread) (h : ∀ t ∈ l, ¬ t.id = tid) :
    (l.filter fun t => t.id != tid) = l := by
  refine List.filter_eq_self.mpr (fun t ht => ?_)
  simp only [bne_iff_ne, ne_eq]
  exact h t ht

/-- After the wake update a thread never qualifies again at the same time:
the update either set `snoozeDue` or the thread did not qualify to begin
with. -/
lemma wakeQualifies_wakeUpdate (now : Nat) (t : Thread) :
    wakeQualifies now (if wakeQualifies now t then { t with snoozeDue := true } else t) = false := by
  by_cases h : wakeQualifies now t
  · simp only [h, if_true]
    unfold wakeQualifies at h ⊢
    cases hs : t.status <;> cases hu : t.snoozeUntil <;> simp_all
  · simp only [h, if_false]
    exact Bool.eq_false_iff.mpr h

/-- WAKE_SNOOZED returns the state itself when no thread qualifies. -/
lemma wake_noop_of_none (now : Nat) (s : AppState)
    (h : ¬ s.threads.any (wakeQualifies now) = true) :
    reducer now s Action.wakeSnoozed = s := by
  simp only [reducer]
  rw [if_neg h]

/-- Two consecutive WAKE_SNOOZED dispatches at the same time are the same
as one: the first pass marks every qualifying thread, so the second pass
finds none. -/
lemma wake_wake (now : Nat) (s : AppState) :
    reducer now (reducer now s Action.wakeSnoozed) Action.wakeSnoozed =
      reducer now s Action.wakeSnoozed := by
  by_cases h : s.threads.any (wakeQualifies now)
  · have hq : ((s.threads.map fun t =>
        if wakeQualifies now t then { t with snoozeDue := true } else t).any
          (wakeQualifies now)) = false := by
      rw [List.any_map]
      rw [List.any_eq_false]
      intro t _
      simp only [Function.comp_apply]
      simp [wakeQualifies_wakeUpdate now t]
    have h1 : reducer now s Action.wakeSnoozed =
        { s with threads := s.threads.map fun t =>
            if wakeQualifies now t then { t with snoozeDue := true } else t } := by
      simp only [reducer]
      rw [if_pos h]
    rw [h1]
    apply wake_noop_of_none
    simp [hq]
  · rw [wake_noop_of_none now s h, wake_noop_of_none now s h]

/-- Every thread of a post-wake state is the wake update of a thread of the
pre-wake state. -/
lemma mem_wake_threads (now : Nat) (s1 : AppState) (t : Thread)
    (ht : t ∈ (reducer now s1 Action.wakeSnoozed).threads) :
    ∃ u ∈ s1.threads,
      t = if wakeQualifies now u then { u with snoozeDue := true } else u := by
  by_cases h : s1.threads.any (wakeQualifies now)
  · have h1 : reducer now s1 Action.wakeSnoozed =
        { s1 with threads := s1.threads.map fun u =>
            if wakeQualifies now u then { u with snoozeDue := true } else u } := by
      simp only [reducer]
      rw [if_pos h]
    rw [h1] at ht
    rcases List.mem_map.mp ht with ⟨u, hu, he⟩
    exact ⟨u, hu, he.symm⟩
  · rw [wake_noop_of_none now s1 h] at ht
    have hf : s1.threads.any (wakeQualifies now) = false := Bool.eq_false_iff.mpr h
    rw [List.any_eq_false] at hf
    refine ⟨t, ht, ?_⟩
    rw [if_neg]
    intro hq
    exact hf t ht hq

/-- C1: SELECT_THREAD at time `now` sets the selection to the given id and
rewrites exactly the threads carrying that id to have `lastReadAt = now`,
`hasUnread = false` and `snoozeDue = false`, leaving every other thread (and
every other field of the updated threads) unchanged, position by position. -/
theorem selectThread_marks_read_and_selects (now : Nat) (s : AppState) (tid : String) :
    (reducer now s (Action.selectThread tid)).selectedThreadId = some tid ∧
    ∀ i : Nat, (reducer now s (Action.selectThread tid)).threads[i]? =
      (s.threads[i]?).map fun t =>
        if t.id = tid then
          { t with lastReadAt := some now, hasUnread := false, snoozeDue := false }
        else t := by
  refine ⟨rfl, fun i => ?_⟩
  simp only [reducer]
  exact List.getElem?_map _ s.threads i

/-- C2 (counterexample): from a state satisfying the snooze invariant
(one snoozed thread with a pending `snoozeUntil`), KILL_THREAD_PTY forces
`status = inactive` without clearing `snoozeUntil`/`snoozeDue`, so the
invariant is not preserved by every reducer action as claimed. -/
theorem killThreadPty_breaks_snooze_invariant :
    snoozeInvariant snoozedState = true ∧
    snoozeInvariant (reducer 0 snoozedState (Action.killThreadPty ("t1"))) = false :=
  ⟨rfl, rfl⟩

/-- C2 (amended): SET_THREAD_STATUS preserves the invariant that
`snoozeUntil` is non-null only for snoozed threads (it clears `snoozeUntil`
for any non-snoozed target status and always clears `snoozeDue`), while
KILL_THREAD_PTY changes status to inactive leaving every thread's
`snoozeUntil` and `snoozeDue` untouched — which is why it can violate the
invariant. -/
theorem snoozeInvariant_setStatus_kill (s : AppState) (h : snoozeInvariant s = true) :
    (∀ (now : Nat) (tid : String) (st : ThreadStatus) (su : Option Nat),
        snoozeInvariant (reducer now s (Action.setThreadStatus tid st su)) = true) ∧
    ∀ (now : Nat) (tid : String),
      ((reducer now s (Action.killThreadPty tid)).threads.map fun t =>
          (t.snoozeUntil, t.snoozeDue)) =
        s.threads.map fun t => (t.snoozeUntil, t.snoozeDue) := by
  constructor
  · intro now tid st su
    simp only [snoozeInvariant] at h
    simp only [snoozeInvariant, reducer]
    rw [List.all_map, List.all_eq_true]
    intro t ht
    simp only [Function.comp_apply]
    by_cases hid : t.id = tid
    · by_cases hst : st = ThreadStatus.snoozed <;> simp [hid, hst]
    · simp only [if_neg hid]
      exact List.all_eq_true.mp h t ht
  · intro now tid
    simp only [reducer]
    rw [List.map_map]
    apply List.map_congr_left
    intro t _
    by_cases hid : t.id = tid <;> simp [hid, Function.comp]

/-- C2 (witness): the amended theorem applied to the concrete snoozed state,
discharging the invariant hypothesis there. -/
theorem snoozeInvariant_setStatus_kill_witness :
    snoozeInvariant (reducer 3 snoozedState
      (Action.setThreadStatus ("t1") ThreadStatus.done none)) = true :=
  (snoozeInvariant_setStatus_kill snoozedState rfl).1 3 ("t1") ThreadStatus.done none

/-- C3 (counterexample): snoozing thread `a` until 10 and then dispatching
WAKE_SNOOZED at time 5 does not return the same state when another thread
(`b`, snoozed with an elapsed `snoozeUntil`) qualifies for waking, so the
claimed universal identity no-op fails. -/
theorem wake_not_identity_with_other_due_thread :
    reducer 5 twoThreadSnoozed Action.wakeSnoozed ≠ twoThreadSnoozed := by
  intro h
  have h2 := congrArg (fun st => st.threads.map Thread.snoozeDue) h
  have e1 : (reducer 5 twoThreadSnoozed Action.wakeSnoozed).threads.map Thread.snoozeDue =
      [false, true] := by rfl
  have e2 : twoThreadSnoozed.threads.map Thread.snoozeDue = [false, false] := by rfl
  simp only [e1, e2] at h2
  exact absurd h2 (by decide)

/-- C3 (amended): after SET_THREAD_STATUS(id, snoozed, ts), a WAKE_SNOOZED
at `now < ts` returns the identical state provided no other thread of the
state qualifies for waking at `now`; at `ts ≤ now` every thread carrying the
id has `snoozeDue = true` afterwards; and a second WAKE_SNOOZED at the same
time is always an identity on the once-woken state. -/
theorem snooze_then_wake_spec (s : AppState) (tid : String) (ts now : Nat) :
    (now < ts → (∀ t ∈ s.threads, ¬ t.id = tid → wakeQualifies now t = false) →
      reducer now (reducer now s (Action.setThreadStatus tid ThreadStatus.snoozed (some ts)))
          Action.wakeSnoozed =
        reducer now s (Action.setThreadStatus tid ThreadStatus.snoozed (some ts))) ∧
    (ts ≤ now →
      ∀ t ∈ (reducer now
          (reducer now s (Action.setThreadStatus tid ThreadStatus.snoozed (some ts)))
          Action.wakeSnoozed).threads, t.id = tid → t.snoozeDue = true) ∧
    ∀ s2 : AppState,
      reducer now (reducer now s2 Action.wakeSnoozed) Action.wakeSnoozed =
        reducer now s2 Action.wakeSnoozed := by
  refine ⟨?_, ?_, fun s2 => wake_wake now s2⟩
  · intro hlt hother
    apply wake_noop_of_none
    simp only [reducer]
    rw [List.any_map]
    intro hany
    rw [List.any_eq_true] at hany
    rcases hany with ⟨t, ht, hq⟩
    simp only [Function.comp_apply] at hq
    by_cases hid : t.id = tid
    · simp [hid, wakeQualifies, Nat.not_le.mpr hlt] at hq
    · rw [if_neg hid] at hq
      rw [hother t ht hid] at hq
      exact Bool.false_ne_true hq
  · intro hge t ht htid
    rcases mem_wake_threads now _ t ht with ⟨u, hu, he⟩
    simp only [reducer] at hu
    rcases List.mem_map.mp hu with ⟨v, hv, hfv⟩
    by_cases hid : v.id = tid
    · have hq : wakeQualifies now u = true := by
        rw [← hfv, if_pos hid]
        simp [wakeQualifies, hge]
      rw [he, if_pos hq]
    · have huv : u = v := by rw [← hfv, if_neg hid]
      have h2 : t.id = v.id := by
        rw [he, huv]
        by_cases hq : wakeQualifies now v <;> simp [hq]
      exact absurd (h2 ▸ htid) hid

/-- C3 (witness): the amended theorem applied to the concrete one-thread
snoozed state, once with `now = 5 < ts = 10` (identity) and once with
`ts = 3 ≤ now = 5` (the woken thread has `snoozeDue = true`). -/
theorem snooze_then_wake_spec_witness :
    (reducer 5 (reducer 5 snoozedState
        (Action.setThreadStatus ("t1") ThreadStatus.snoozed (some 10))) Action.wakeSnoozed =
      reducer 5 snoozedState (Action.setThreadStatus ("t1") ThreadStatus.snoozed (some 10))) ∧
    ({ snoozedThread with snoozeUntil := some 3, snoozeDue := true } : Thread).snoozeDue = true :=
  ⟨(snooze_then_wake_spec snoozedState ("t1") 10 5).1 (by decide) (by decide),
   (snooze_then_wake_spec snoozedState ("t1") 3 5).2.1 (by decide)
     { snoozedThread with snoozeUntil := some 3, snoozeDue := true } (by decide) (by decide)⟩

/-- C4: MARK_ACTIVITY at time `now` rewrites exactly the threads carrying
the id: `lastActivityAt` becomes `now` and `hasUnread` is recomputed as
false when the thread is the selected one and as `now > (lastReadAt ?? 0)`
otherwise; every other thread and field is unchanged, position by
position. -/
theorem markActivity_recomputes_unread (now : Nat) (s : AppState) (tid : String) :
    ∀ i : Nat, (reducer now s (Action.markActivity tid)).threads[i]? =
      (s.threads[i]?).map fun t =>
        if t.id = tid then
          { t with lastActivityAt := now
                   hasUnread := if some t.id = s.selectedThreadId then false
                                else decide (t.lastReadAt.getD 0 < now) }
        else t := by
  intro i
  simp only [reducer]
  rw [List.getElem?_map]
  cases s.threads[i]? with
  | none => rfl
  | some t =>
      by_cases h : t.id = tid <;> simp [h, deriveUnread]

/-- C5: KILL_THREAD_PTY leaves the targeted threads with `ptyId = null`,
`ptyRunning = false`, `ptyExitCode = -1` and `status = inactive` regardless
of their prior status (other threads and fields untouched, position by
position), and applying it twice gives the same state as applying it
once. -/
theorem killThreadPty_inactive_and_idempotent (now : Nat) (s : AppState) (tid : String) :
    (∀ i : Nat, (reducer now s (Action.killThreadPty tid)).threads[i]? =
      (s.threads[i]?).map fun t =>
        if t.id = tid then
          { t with ptyId := none, ptyRunning := false, ptyExitCode := some (-1),
                   status := ThreadStatus.inactive }
        else t) ∧
    ∀ now2 : Nat,
      reducer now2 (reducer now s (Action.killThreadPty tid)) (Action.killThreadPty tid) =
        reducer now s (Action.killThreadPty tid) := by
  constructor
  · intro i
    simp only [reducer]
    exact List.getElem?_map _ s.threads i
  · intro now2
    simp only [reducer]
    congr 1
    rw [List.map_map]
    apply List.map_congr_left
    intro t _
    by_cases h : t.id = tid <;> simp [h, Function.comp]

/-- C6: the reducer is a total function over the closed action type, and an
action that references a thread id not present in the state leaves the
threads array unchanged; SELECT_THREAD with a non-existent id still updates
the selection. -/
theorem reducer_missing_id_noop (now : Nat) (s : AppState) (a : Action) (tid : String)
    (h1 : targetThreadId a = some tid)
    (h2 : ∀ t ∈ s.threads, ¬ t.id = tid) :
    (reducer now s a).threads = s.threads ∧
    (a = Action.selectThread tid → (reducer now s a).selectedThreadId = some tid) := by
  cases a <;> first
    | exact Option.noConfusion h1
    | (simp only [targetThreadId, Option.some.injEq] at h1
       subst h1
       constructor
       · simp only [reducer]
         first
           | exact map_ite_id _ _ _ h2
           | exact filter_ne_id _ _ h2
       · intro heq
         first
           | rfl
           | exact absurd heq (by simp))

/-- C6 (witness): selecting the absent id `x` in the one-thread state
leaves the threads unchanged and still moves the selection. -/
theorem reducer_missing_id_noop_witness :
    (reducer 7 snoozedState (Action.selectThread ("x"))).threads = snoozedState.threads ∧
    (reducer 7 snoozedState (Action.selectThread ("x"))).selectedThreadId = some ("x") :=
  ⟨(reducer_missing_id_noop 7 snoozedState (Action.selectThread ("x")) ("x") rfl (by decide)).1,
   (reducer_missing_id_noop 7 snoozedState (Action.selectThread ("x")) ("x") rfl (by decide)).2
     rfl⟩

/-- C7: serializing a thread list and hydrating it back forces, for every
thread, `ptyRunning = false`, `ptyId = null`, `hasUnread = false` and
`ptyExitCode = 0` (the restart sentinel), and preserves every other
persisted field, position by position. -/
theorem persist_hydrate_roundTrip (threads : List Thread) :
    ∀ i : Nat, (hydrateThreads (serializeThreads threads))[i]? =
      (threads[i]?).map fun t =>
        { t with ptyRunning := false, ptyExitCode := some 0, ptyId := none,
                 hasUnread := false } := by
  intro i
  simp only [hydrateThreads, serializeThreads]
  rw [List.getElem?_map]
  cases threads[i]? <;> simp [hydrateThread]

/-- C8 (counterexample): with `now = 0`, a message scheduled at
`now + 1000` whose prompt is the empty string is left pending by a sweep at
`now + 500` and fired by a sweep at `now + 1500`, which creates exactly one
thread — but its title is the "New thread" fallback, not the message's
prompt, so the claimed `title == M.prompt` fails. -/
theorem fireSweep_empty_prompt_counterexample :
    emptyPromptMessage.scheduledAt = 0 + 1000 ∧
    fireSweepStep (0 + 500) (fun _ => ("nt")) emptyPromptState = emptyPromptState ∧
    (fireSweepStep (0 + 1500) (fun _ => ("nt")) emptyPromptState).scheduledMessages = [] ∧
    (fireSweepStep (0 + 1500) (fun _ => ("nt")) emptyPromptState).threads.map Thread.title =
      [("New thread")] ∧
    ¬ (("New thread") = emptyPromptMessage.prompt) :=
  ⟨rfl, rfl, rfl, rfl, by decide⟩

/-- C8 (amended): for a state whose pending list is exactly the message M
with non-empty prompt and `scheduledAt = now + 1000`, the fire-sweep at
`now + 500` is an identity, and the sweep at `now + 1500` empties the
pending list and appends exactly one new thread whose title is M's
prompt. -/
theorem fireSweep_schedule_scenario (s : AppState) (m : ScheduledMessage) (now : Nat)
    (g : Nat → String)
    (hm : s.scheduledMessages = [m]) (hp : ¬ m.prompt = (""))
    (hs : m.scheduledAt = now + 1000) :
    fireSweepStep (now + 500) g s = s ∧
    (fireSweepStep (now + 1500) g s).scheduledMessages = [] ∧
    ∃ t : Thread, (fireSweepStep (now + 1500) g s).threads = s.threads ++ [t] ∧
      t.title = m.prompt := by
  have hearly : ¬ m.scheduledAt ≤ now + 500 := by omega
  have hlate : m.scheduledAt ≤ now + 1500 := by omega
  refine ⟨?_, ?_, ?_⟩
  · rw [fireSweepStep, hm]
    simp only [fireSweepAux, if_neg hearly]
  · rw [fireSweepStep, hm]
    simp only [fireSweepAux, if_pos hlate]
    simp [reducer, hm]
  · refine ⟨makeThread (g 0) m.channelId (presentOr m.prompt ("New thread"))
      ThreadType.terminal (some 0) none none
      (m.prompt == ("") || m.prompt == ("New thread")) (now + 1500), ?_, ?_⟩
    · rw [fireSweepStep, hm]
      simp only [fireSweepAux, if_pos hlate]
      simp [reducer]
    · simp [makeThread, presentOr, hp]

/-- C8 (witness): the amended theorem applied to the concrete state holding
one message with prompt "hello" scheduled at 1000, swept at 500 and 1500. -/
theorem fireSweep_schedule_scenario_witness :
    fireSweepStep (0 + 500) (fun _ => ("nt")) promptState = promptState ∧
    (fireSweepStep (0 + 1500) (fun _ => ("nt")) promptState).scheduledMessages = [] :=
  ⟨(fireSweep_schedule_scenario promptState promptMessage 0 (fun _ => ("nt"))
      rfl (by decide) rfl).1,
   (fireSweep_schedule_scenario promptState promptMessage 0 (fun _ => ("nt"))
      rfl (by decide) rfl).2.1⟩

/-- C9: on the output lines of the scenario with auto-run command "claude"
and an auto-titled session whose command has started, the auto-title step
derives the title "Building the login page..." (the first line longer than
3 characters that does not start with a prompt or box-drawing character and
is not the command, truncated at 60 characters), does nothing further once
the done flag is set no matter what lines arrive later, and the dispatched
RENAME_THREAD sets exactly the targeted threads' title (clearing
`autoTitled`), position by position. -/
theorem autoTitle_scenario :
    autoTitleStep ("claude") false true true
      [("$ "), ("claude"), ("Building the login page..."), ("next line")] =
      (true, some ("Building the login page...")) ∧
    (∀ later : List String, autoTitleStep ("claude") true true true later = (true, none)) ∧
    ∀ (now : Nat) (s : AppState) (tid : String) (i : Nat),
      (reducer now s (Action.renameThread tid ("Building the login page..."))).threads[i]? =
        (s.threads[i]?).map fun t =>
          if t.id = tid then
            { t with title := ("Building the login page..."), autoTitled := false }
          else t := by
  refine ⟨by decide, fun later => by simp [autoTitleStep], ?_⟩
  intro now s tid i
  simp only [reducer]
  exact List.getElem?_map _ s.threads i

/-- C10: FIRE_SCHEDULED and CANCEL_SCHEDULED produce equal states — both
remove the scheduled messages with the given id and change nothing else
(the remove-plus-create firing semantics lives in the sweep caller). -/
theorem fireScheduled_eq_cancelScheduled (now : Nat) (s : AppState) (mid : String) :
    reducer now s (Action.fireScheduled mid) = reducer now s (Action.cancelScheduled mid) ∧
    reducer now s (Action.fireScheduled mid) =
      { s with scheduledMessages := s.scheduledMessages.filter fun m => m.id != mid } :=
  ⟨rfl, rfl⟩

end Titan
